import Mathlib

/-!
Shallow embedding of the ride-dispatch simulator backend
(`src/backend`): geometry utilities, entity models, simulation
state, and the dispatch / acceptance / movement algorithms, together
with theorems checking the specification's claims against this code.

Python `dict`s keyed by id are modelled as insertion-ordered
association lists; in-place mutation is modelled by explicit state
passing; Python's stable `list.sort` is modelled by a stable insertion
sort; float scores are modelled by exact rationals (all score
arithmetic in the source is on small integer-valued quantities);
the `random` calls in movement are modelled by explicit direction /
coin parameters.
-/

namespace RideSim

set_option maxRecDepth 100000

/-! ### Geometry (`src/utils/geometry.py`) -/

/-- Manhattan distance between two grid points (`manhattan_distance`). -/
def manhattan_distance (x1 y1 x2 y2 : Int) : Int :=
  ((x1 - x2).natAbs : Int) + ((y1 - y2).natAbs : Int)

/-- `is_within_radius`: target within `radius` of center, Manhattan metric. -/
def is_within_radius (center_x center_y target_x target_y radius : Int) : Bool :=
  manhattan_distance center_x center_y target_x target_y ≤ radius

/-- `clamp_to_grid`: clamp each coordinate into `[0, grid_size - 1]`. -/
def clamp_to_grid (x y grid_size : Int) : Int × Int :=
  (max 0 (min x (grid_size - 1)), max 0 (min y (grid_size - 1)))

/-- `calculate_eta`: ETA in ticks equals the Manhattan distance. -/
def calculate_eta (from_x from_y to_x to_y : Int) : Int :=
  manhattan_distance from_x from_y to_x to_y

/-! ### Status enumerations (`src/models/enums.py`) -/

/-- `DriverStatus` enumeration. -/
inductive DriverStatus
  | available
  | assigned
  | on_trip
  | offline
  deriving DecidableEq, Repr

/-- `RiderStatus` enumeration. -/
inductive RiderStatus
  | waiting
  | picked_up
  | completed
  deriving DecidableEq, Repr

/-- `RideStatus` enumeration. -/
inductive RideStatus
  | waiting
  | assigned
  | pickup
  | on_trip
  | completed
  | failed
  deriving DecidableEq, Repr

/-! ### Entity models (`src/models/driver.py`, `rider.py`, `ride_request.py`) -/

/-- `Driver` model: position, status, search radius, counters, current ride. -/
structure Driver where
  id : String
  x : Int
  y : Int
  status : DriverStatus := DriverStatus.available
  search_radius : Int := 5
  completed_rides : Nat := 0
  idle_ticks : Nat := 0
  current_ride_id : Option String := none
  deriving DecidableEq, Repr

/-- `Driver.reset_idle_state`: zero the idle counter and reset the radius.
The source hard-codes `self.search_radius = 5`. -/
def Driver.reset_idle_state (d : Driver) : Driver :=
  { d with idle_ticks := 0, search_radius := 5 }

/-- `Rider` model. -/
structure Rider where
  id : String
  x : Int
  y : Int
  status : RiderStatus := RiderStatus.waiting
  deriving DecidableEq, Repr

/-- `RideRequest` model. -/
structure RideRequest where
  id : String
  rider_id : String
  pickup_x : Int
  pickup_y : Int
  dropoff_x : Int
  dropoff_y : Int
  status : RideStatus := RideStatus.waiting
  assigned_driver_id : Option String := none
  rejected_driver_ids : List String := []
  created_tick : Nat := 0
  cooldown_until_tick : Option Nat := none
  deriving DecidableEq, Repr

/-- `RideRequest.is_in_cooldown`: true while `current_tick < cooldown_until_tick`. -/
def RideRequest.is_in_cooldown (r : RideRequest) (current_tick : Nat) : Bool :=
  match r.cooldown_until_tick with
  | none => false
  | some c => current_tick < c

/-- `RideRequest.add_rejection`: append the driver id (duplicates ignored) and
set the cooldown window. -/
def RideRequest.add_rejection (r : RideRequest) (driver_id : String)
    (current_tick cooldown_ticks : Nat) : RideRequest :=
  { r with
    rejected_driver_ids :=
      if driver_id ∈ r.rejected_driver_ids then r.rejected_driver_ids
      else r.rejected_driver_ids ++ [driver_id],
    cooldown_until_tick := some (current_tick + cooldown_ticks) }

/-- `RideRequest.assign_driver`: record the driver and move to ASSIGNED. -/
def RideRequest.assign_driver (r : RideRequest) (driver_id : String) : RideRequest :=
  { r with assigned_driver_id := some driver_id, status := RideStatus.assigned }

/-- `RideRequest.start_trip`: ASSIGNED/PICKUP → ON_TRIP (guarded). -/
def RideRequest.start_trip (r : RideRequest) : RideRequest :=
  if r.status = RideStatus.assigned ∨ r.status = RideStatus.pickup then
    { r with status := RideStatus.on_trip }
  else r

/-- `RideRequest.complete`: set status COMPLETED (nothing else is changed). -/
def RideRequest.complete (r : RideRequest) : RideRequest :=
  { r with status := RideStatus.completed }

/-- `RideRequest.fail`: set status FAILED (nothing else is changed). -/
def RideRequest.fail (r : RideRequest) : RideRequest :=
  { r with status := RideStatus.failed }

/-! ### Simulation state (`src/state.py`) -/

/-- `SimulationConfig` with the source's defaults. -/
structure SimulationConfig where
  initial_search_radius : Int := 15
  max_search_radius : Int := 100
  radius_growth_interval : Nat := 2
  grid_size : Int := 100
  rejection_cooldown_ticks : Nat := 5
  fairness_penalty : ℚ := 1
  global_search_after_ticks : Nat := 10
  deriving DecidableEq, Repr

/-- `SimulationState`: entity registries (insertion-ordered, as Python dicts),
tick counter and configuration. -/
structure SimulationState where
  drivers : List Driver := []
  riders : List Rider := []
  ride_requests : List RideRequest := []
  current_tick : Nat := 0
  config : SimulationConfig := {}
  deriving DecidableEq, Repr

/-- First entry of `l` whose key equals `i` (Python dict lookup by id). -/
def findBy {α : Type} (key : α → String) (i : String) (l : List α) : Option α :=
  l.find? (fun a => key a == i)

/-- Replace the entries of `l` keyed `i` by their image under `f`
(Python in-place mutation of the entity object stored in the dict). -/
def updateBy {α : Type} (key : α → String) (i : String) (f : α → α) (l : List α) :
    List α :=
  l.map (fun a => if key a = i then f a else a)

/-- `SimulationState.get_driver`. -/
def SimulationState.get_driver (s : SimulationState) (driver_id : String) :
    Option Driver :=
  findBy Driver.id driver_id s.drivers

/-- `SimulationState.get_rider`. -/
def SimulationState.get_rider (s : SimulationState) (rider_id : String) :
    Option Rider :=
  findBy Rider.id rider_id s.riders

/-- `SimulationState.get_ride_request`. -/
def SimulationState.get_ride_request (s : SimulationState) (ride_id : String) :
    Option RideRequest :=
  findBy RideRequest.id ride_id s.ride_requests

/-- Mutate the driver stored under `driver_id`. -/
def SimulationState.update_driver (s : SimulationState) (driver_id : String)
    (f : Driver → Driver) : SimulationState :=
  { s with drivers := updateBy Driver.id driver_id f s.drivers }

/-- Mutate the rider stored under `rider_id`. -/
def SimulationState.update_rider (s : SimulationState) (rider_id : String)
    (f : Rider → Rider) : SimulationState :=
  { s with riders := updateBy Rider.id rider_id f s.riders }

/-- Mutate the ride request stored under `ride_id`. -/
def SimulationState.update_ride (s : SimulationState) (ride_id : String)
    (f : RideRequest → RideRequest) : SimulationState :=
  { s with ride_requests := updateBy RideRequest.id ride_id f s.ride_requests }

/-- `SimulationState.get_available_drivers`. -/
def SimulationState.get_available_drivers (s : SimulationState) : List Driver :=
  s.drivers.filter (fun d => d.status == DriverStatus.available)

/-- `SimulationState.get_waiting_rides`: WAITING and not in cooldown. -/
def SimulationState.get_waiting_rides (s : SimulationState) : List RideRequest :=
  s.ride_requests.filter
    (fun r => r.status == RideStatus.waiting && !(r.is_in_cooldown s.current_tick))

/-- `SimulationState.add_driver`: uniqueness-checked insertion
(`none` models the `ValueError` on a duplicate id). -/
def SimulationState.add_driver (s : SimulationState) (d : Driver) :
    Option SimulationState :=
  match findBy Driver.id d.id s.drivers with
  | some _ => none
  | none => some { s with drivers := s.drivers ++ [d] }

/-- `SimulationState.add_rider`: uniqueness-checked insertion. -/
def SimulationState.add_rider (s : SimulationState) (r : Rider) :
    Option SimulationState :=
  match findBy Rider.id r.id s.riders with
  | some _ => none
  | none => some { s with riders := s.riders ++ [r] }

/-- `SimulationState.add_ride_request`: uniqueness-checked insertion, stamping
`created_tick` with the current tick. -/
def SimulationState.add_ride_request (s : SimulationState) (r : RideRequest) :
    Option SimulationState :=
  match findBy RideRequest.id r.id s.ride_requests with
  | some _ => none
  | none =>
    some { s with
      ride_requests := s.ride_requests ++ [{ r with created_tick := s.current_tick }] }

/-- `SimulationState.increment_tick`. -/
def SimulationState.increment_tick (s : SimulationState) : SimulationState :=
  { s with current_tick := s.current_tick + 1 }

/-! ### Dispatch engine (`src/algorithms/dispatch.py`) -/

/-- `find_eligible_drivers`: AVAILABLE, not in the ride's rejected set,
pickup within the driver's current search radius. -/
def find_eligible_drivers (ride : RideRequest) (drivers : List Driver) :
    List Driver :=
  drivers.filter (fun d =>
    d.status == DriverStatus.available &&
    !(ride.rejected_driver_ids.contains d.id) &&
    is_within_radius d.x d.y ride.pickup_x ride.pickup_y d.search_radius)

/-- The per-driver sort key of `prioritize_drivers`:
`(fairness_weight * completed_rides * 10 + distance, completed_rides, distance)`. -/
def scoreKey (fairness_weight : ℚ) (ride : RideRequest) (d : Driver) :
    ℚ × Nat × Int :=
  let distance_to_pickup := manhattan_distance d.x d.y ride.pickup_x ride.pickup_y
  (fairness_weight * (d.completed_rides : ℚ) * 10 + (distance_to_pickup : ℚ),
   d.completed_rides, distance_to_pickup)

/-- Lexicographic comparison of sort keys (Python tuple ordering). -/
def keyLe (a b : ℚ × Nat × Int) : Bool :=
  if a.1 < b.1 then true
  else if b.1 < a.1 then false
  else if a.2.1 < b.2.1 then true
  else if b.2.1 < a.2.1 then false
  else a.2.2 ≤ b.2.2

/-- Insert `x` into `l` before the first element it compares `le` to
(the insertion step of a stable ascending sort). -/
def insertSorted {α : Type} (le : α → α → Bool) (x : α) : List α → List α
  | [] => [x]
  | y :: ys => if le x y then x :: y :: ys else y :: insertSorted le x ys

/-- Stable ascending sort (models Python's stable `list.sort`). -/
def stableSort {α : Type} (le : α → α → Bool) : List α → List α
  | [] => []
  | x :: xs => insertSorted le x (stableSort le xs)

/-- `prioritize_drivers`: stable sort of the eligible drivers by composite
score, then completed rides, then distance (all ascending). -/
def prioritize_drivers (eligible_drivers : List Driver) (ride : RideRequest)
    (fairness_weight : ℚ) : List Driver :=
  if eligible_drivers.isEmpty then []
  else
    stableSort
      (fun d1 d2 => keyLe (scoreKey fairness_weight ride d1)
        (scoreKey fairness_weight ride d2))
      eligible_drivers

/-- `dispatch_ride`: returns `(success, driver_id)` and the updated state. -/
def dispatch_ride (ride_id : String) (s : SimulationState) :
    (Bool × Option String) × SimulationState :=
  match s.get_ride_request ride_id with
  | none => ((false, none), s)
  | some ride =>
    if ride.status ≠ RideStatus.waiting then ((false, none), s)
    else if ride.is_in_cooldown s.current_tick then ((false, none), s)
    else
      let available_drivers := s.get_available_drivers
      if available_drivers.isEmpty then ((false, none), s)
      else
        let eligible_drivers := find_eligible_drivers ride available_drivers
        if eligible_drivers.isEmpty then ((false, none), s)
        else
          match prioritize_drivers eligible_drivers ride s.config.fairness_penalty with
          | [] => ((false, none), s)
          | best_driver :: _ =>
            let s1 := s.update_ride ride_id (fun r => r.assign_driver best_driver.id)
            let s2 := s1.update_driver best_driver.id (fun d =>
              ({ d with status := DriverStatus.assigned,
                        current_ride_id := some ride.id }).reset_idle_state)
            ((true, some best_driver.id), s2)

/-- `attempt_fallback_dispatch`: record the rejection, retry dispatch with the
cooldown temporarily cleared, restore it on failure, and mark the ride FAILED
when every currently available driver has rejected it. -/
def attempt_fallback_dispatch (ride_id rejected_driver_id : String)
    (s : SimulationState) : (Bool × Option String) × SimulationState :=
  match s.get_ride_request ride_id with
  | none => ((false, none), s)
  | some _ =>
    let s1 := s.update_ride ride_id (fun r =>
      r.add_rejection rejected_driver_id s.current_tick
        s.config.rejection_cooldown_ticks)
    let s2 := s1.update_ride ride_id (fun r =>
      { r with status := RideStatus.waiting, assigned_driver_id := none })
    let original_cooldown :=
      (s2.get_ride_request ride_id).bind RideRequest.cooldown_until_tick
    let s3 := s2.update_ride ride_id (fun r => { r with cooldown_until_tick := none })
    let res := dispatch_ride ride_id s3
    if res.1.1 then (res.1, res.2)
    else
      let s4 := res.2.update_ride ride_id (fun r =>
        { r with cooldown_until_tick := original_cooldown })
      let all_rejected :=
        match s4.get_ride_request ride_id with
        | some r => s4.get_available_drivers.all
            (fun d => r.rejected_driver_ids.contains d.id)
        | none => false
      if all_rejected then ((false, res.1.2), s4.update_ride ride_id RideRequest.fail)
      else ((false, res.1.2), s4)

/-- The ride-processing order used by `batch_dispatch`:
Python's stable sort of the waiting rides by `created_tick`. -/
def sortRidesByCreated (rides : List RideRequest) : List RideRequest :=
  stableSort (fun a b => decide (a.created_tick ≤ b.created_tick)) rides

/-- `batch_dispatch`: dispatch every waiting, non-cooldown ride in
`created_tick` order, accumulating the successful `(ride_id, driver_id)`
pairs (the Python dict, in insertion order). -/
def batch_dispatch (s : SimulationState) :
    List (String × String) × SimulationState :=
  let waiting_rides := sortRidesByCreated s.get_waiting_rides
  waiting_rides.foldl
    (fun acc ride =>
      let res := dispatch_ride ride.id acc.2
      match res.1 with
      | (true, some driver_id) => (acc.1 ++ [(ride.id, driver_id)], res.2)
      | _ => (acc.1, res.2))
    ([], s)

/-! ### Acceptance protocol (`src/algorithms/acceptance.py`) -/

/-- `should_accept_ride`: accept iff the driver is AVAILABLE and the pickup is
within its current search radius. -/
def should_accept_ride (driver : Driver) (ride : RideRequest) : Bool :=
  driver.status == DriverStatus.available &&
  is_within_radius driver.x driver.y ride.pickup_x ride.pickup_y
    driver.search_radius

/-- `process_driver_response`: guarded accept/reject processing; rejection
records the rejection, reverts the ride to WAITING and runs fallback dispatch. -/
def process_driver_response (driver_id ride_id : String) (accepted : Bool)
    (s : SimulationState) : Bool × SimulationState :=
  match s.get_driver driver_id, s.get_ride_request ride_id with
  | none, _ => (false, s)
  | some _, none => (false, s)
  | some _, some ride =>
    if ride.assigned_driver_id ≠ some driver_id then (false, s)
    else if accepted then
      (true, s.update_driver driver_id (fun d =>
        ({ d with status := DriverStatus.assigned,
                  current_ride_id := some ride_id }).reset_idle_state))
    else
      let s1 := s.update_driver driver_id (fun d =>
        { d with status := DriverStatus.available, current_ride_id := none })
      let s2 := s1.update_ride ride_id (fun r =>
        r.add_rejection driver_id s1.current_tick s1.config.rejection_cooldown_ticks)
      let s3 := s2.update_ride ride_id (fun r =>
        { r with status := RideStatus.waiting, assigned_driver_id := none })
      (true, (attempt_fallback_dispatch ride_id driver_id s3).2)

/-- `auto_process_acceptance`: compute `should_accept_ride` and feed it to
`process_driver_response`, returning the acceptance outcome. -/
def auto_process_acceptance (driver_id ride_id : String) (s : SimulationState) :
    Bool × SimulationState :=
  match s.get_driver driver_id, s.get_ride_request ride_id with
  | some driver, some ride =>
    let accepted := should_accept_ride driver ride
    (accepted, (process_driver_response driver_id ride_id accepted s).2)
  | _, _ => (false, s)

/-! ### Movement / progression engine (`src/algorithms/movement.py`) -/

/-- The four axis-aligned movement directions. -/
inductive Direction
  | up
  | down
  | left
  | right
  deriving DecidableEq, Repr

/-- The coordinate delta of a direction. -/
def Direction.delta : Direction → Int × Int
  | Direction.up => (0, 1)
  | Direction.down => (0, -1)
  | Direction.left => (-1, 0)
  | Direction.right => (1, 0)

/-- `move_driver_randomly`: one clamped unit step in the (randomly chosen,
here explicitly passed) direction; only AVAILABLE drivers move. -/
def move_driver_randomly (d : Driver) (dir : Direction) (grid_size : Int) : Driver :=
  if d.status ≠ DriverStatus.available then d
  else
    let delta := dir.delta
    let p := clamp_to_grid (d.x + delta.1) (d.y + delta.2) grid_size
    { d with x := p.1, y := p.2 }

/-- The raw (pre-clamp) step of `move_driver_toward_target`: move one unit on
the axis with the larger remaining offset; `coin` models the random choice on
ties (`true` = horizontal). -/
def move_step (x y target_x target_y : Int) (coin : Bool) : Int × Int :=
  let dx := target_x - x
  let dy := target_y - y
  if dx.natAbs > dy.natAbs then (x + (if dx > 0 then 1 else -1), y)
  else if dy.natAbs > dx.natAbs then (x, y + (if dy > 0 then 1 else -1))
  else if coin then (x + (if dx > 0 then 1 else -1), y)
  else (x, y + (if dy > 0 then 1 else -1))

/-- `move_driver_toward_target`: no-op at the target, otherwise the raw step
clamped to the grid. -/
def move_driver_toward_target (d : Driver) (target_x target_y grid_size : Int)
    (coin : Bool) : Driver :=
  if d.x = target_x ∧ d.y = target_y then d
  else
    let p := move_step d.x d.y target_x target_y coin
    let q := clamp_to_grid p.1 p.2 grid_size
    { d with x := q.1, y := q.2 }

/-- `update_driver_search_radius`: for AVAILABLE drivers, bump `idle_ticks` and
grow the radius by 1 every `radius_growth_interval` idle ticks, capped at
`max_search_radius`. -/
def update_driver_search_radius (d : Driver) (config : SimulationConfig) : Driver :=
  if d.status ≠ DriverStatus.available then d
  else
    let d1 := { d with idle_ticks := d.idle_ticks + 1 }
    if d1.idle_ticks > 0 ∧ d1.idle_ticks % config.radius_growth_interval = 0 then
      { d1 with search_radius := min config.max_search_radius (d1.search_radius + 1) }
    else d1

/-- `complete_ride`: ride → COMPLETED, driver → AVAILABLE with
`completed_rides` incremented and idle state zeroed, rider → COMPLETED. -/
def complete_ride (driver_id ride_id : String) (s : SimulationState) :
    SimulationState :=
  let s1 := s.update_ride ride_id RideRequest.complete
  let s2 := s1.update_driver driver_id (fun d =>
    { d with status := DriverStatus.available, current_ride_id := none,
             completed_rides := d.completed_rides + 1, idle_ticks := 0 })
  match s2.get_ride_request ride_id with
  | none => s2
  | some ride => s2.update_rider ride.rider_id (fun rr =>
      { rr with status := RiderStatus.completed })

/-- `process_driver_movement`: per-tick behaviour keyed by driver status
(random walk and radius growth when AVAILABLE, drive to pickup when ASSIGNED,
drive to dropoff and complete when ON_TRIP, nothing when OFFLINE). -/
def process_driver_movement (driver_id : String) (dir : Direction) (coin : Bool)
    (s : SimulationState) : SimulationState :=
  match s.get_driver driver_id with
  | none => s
  | some driver =>
    match driver.status with
    | DriverStatus.available =>
      let d1 := move_driver_randomly driver dir s.config.grid_size
      let d2 := update_driver_search_radius d1 s.config
      s.update_driver driver_id (fun _ => d2)
    | DriverStatus.assigned =>
      match driver.current_ride_id with
      | none => s
      | some rid =>
        match s.get_ride_request rid with
        | none => s
        | some ride =>
          let d1 := move_driver_toward_target driver ride.pickup_x ride.pickup_y
            s.config.grid_size coin
          let s1 := s.update_driver driver_id (fun _ => d1)
          if d1.x = ride.pickup_x ∧ d1.y = ride.pickup_y then
            let s2 := s1.update_driver driver_id (fun d =>
              { d with status := DriverStatus.on_trip })
            let s3 := s2.update_ride rid RideRequest.start_trip
            s3.update_rider ride.rider_id (fun rr =>
              { rr with x := d1.x, y := d1.y, status := RiderStatus.picked_up })
          else s1
    | DriverStatus.on_trip =>
      match driver.current_ride_id with
      | none => s
      | some rid =>
        match s.get_ride_request rid with
        | none => s
        | some ride =>
          let d1 := move_driver_toward_target driver ride.dropoff_x ride.dropoff_y
            s.config.grid_size coin
          let s1 := s.update_driver driver_id (fun _ => d1)
          let s2 := s1.update_rider ride.rider_id (fun rr =>
            { rr with x := d1.x, y := d1.y })
          if d1.x = ride.dropoff_x ∧ d1.y = ride.dropoff_y then
            complete_ride driver_id rid s2
          else s2
    | DriverStatus.offline => s

/-! ### Concrete fixtures used by the claim theorems -/

/-- A freshly created driver at the ride's pickup point. -/
def exD1 : Driver := { id := "d1", x := 50, y := 50 }

/-- The requesting rider. -/
def exRider1 : Rider := { id := "r1", x := 50, y := 50 }

/-- A waiting ride request with pickup at the driver's position. -/
def exRide1 : RideRequest :=
  { id := "ride1", rider_id := "r1",
    pickup_x := 50, pickup_y := 50, dropoff_x := 60, dropoff_y := 60 }

/-- World state with one available driver, one rider and one waiting ride,
under the default configuration. -/
def exS0 : SimulationState :=
  { drivers := [exD1], riders := [exRider1], ride_requests := [exRide1] }

/-! ### Fixtures and auxiliary definitions for the claim theorems -/

/-- A default driver (initial radius 5) used to exercise radius growth. -/
def c3Driver : Driver := { id := "d9", x := 0, y := 0 }

/-- Iterated `move_driver_toward_target`, with an explicit stream of
tie-break coins (`coins n` is the coin of step `n`). -/
def move_iter (target_x target_y grid_size : Int) (coins : Nat → Bool) :
    Nat → Driver → Driver
  | 0, d => d
  | Nat.succ n, d =>
    move_iter target_x target_y grid_size (fun i => coins (i + 1)) n
      (move_driver_toward_target d target_x target_y grid_size (coins 0))

/-- The single available driver contested by the two rides. -/
def c6D1 : Driver := { id := "d1", x := 50, y := 50 }

/-- Rider of the older ride. -/
def c6RiderA : Rider := { id := "rA", x := 50, y := 50 }

/-- Rider of the newer ride. -/
def c6RiderB : Rider := { id := "rB", x := 50, y := 50 }

/-- Ride created at tick 1 (older). -/
def c6RideA : RideRequest :=
  { id := "rideA", rider_id := "rA",
    pickup_x := 50, pickup_y := 50, dropoff_x := 55, dropoff_y := 55,
    created_tick := 1 }

/-- Ride created at tick 2 (newer); stored *before* the older one to show the
sort, not insertion order, decides the processing order. -/
def c6RideB : RideRequest :=
  { id := "rideB", rider_id := "rB",
    pickup_x := 50, pickup_y := 50, dropoff_x := 45, dropoff_y := 45,
    created_tick := 2 }

/-- Two waiting rides (newer stored first) contesting one available driver. -/
def c6S : SimulationState :=
  { drivers := [c6D1], riders := [c6RiderA, c6RiderB],
    ride_requests := [c6RideB, c6RideA], current_tick := 2 }

/-- The condition under which `process_driver_movement` completes the ride of
driver `driver_id` this tick: the driver is ON_TRIP and its move lands
exactly on the ride's dropoff point. -/
def completesThisTick (driver_id : String) (coin : Bool)
    (t : SimulationState) : Prop :=
  ∃ d rid r, t.get_driver driver_id = some d ∧
    d.status = DriverStatus.on_trip ∧ d.current_ride_id = some rid ∧
    t.get_ride_request rid = some r ∧
    (move_driver_toward_target d r.dropoff_x r.dropoff_y t.config.grid_size
      coin).x = r.dropoff_x ∧
    (move_driver_toward_target d r.dropoff_x r.dropoff_y t.config.grid_size
      coin).y = r.dropoff_y

/-- An ON_TRIP driver one grid unit short of the dropoff point. -/
def c8D : Driver :=
  { id := "dT", x := 2, y := 2, status := DriverStatus.on_trip,
    current_ride_id := some "rideT" }

/-- The rider being carried by `c8D`. -/
def c8Rider : Rider :=
  { id := "rT", x := 2, y := 2, status := RiderStatus.picked_up }

/-- The ride in progress, with dropoff `(2, 3)`. -/
def c8Ride : RideRequest :=
  { id := "rideT", rider_id := "rT",
    pickup_x := 2, pickup_y := 0, dropoff_x := 2, dropoff_y := 3,
    status := RideStatus.on_trip, assigned_driver_id := some "dT" }

/-- World in which the next movement tick completes the ride. -/
def c8S : SimulationState :=
  { drivers := [c8D], riders := [c8Rider], ride_requests := [c8Ride] }

/-- The ride as it stands after the single driver `d1` has rejected it and
fallback dispatch has exhausted all available drivers. -/
def c7FailedRide : RideRequest :=
  { id := "ride1", rider_id := "r1",
    pickup_x := 50, pickup_y := 50, dropoff_x := 60, dropoff_y := 60,
    status := RideStatus.failed, assigned_driver_id := none,
    rejected_driver_ids := ["d1"], created_tick := 0,
    cooldown_until_tick := some 5 }

/-- The claim's per-ride invariant, amended: `assigned_driver_id` is non-null
iff the status is ASSIGNED, PICKUP, ON_TRIP — or COMPLETED (the code keeps
the fulfilling driver's id on completion). -/
def rideInv (r : RideRequest) : Prop :=
  r.assigned_driver_id ≠ none ↔
    (r.status = RideStatus.assigned ∨ r.status = RideStatus.pickup ∨
     r.status = RideStatus.on_trip ∨ r.status = RideStatus.completed)

/-- The amended invariant, over every stored ride request. -/
def stateRideInv (s : SimulationState) : Prop :=
  ∀ r ∈ s.ride_requests, rideInv r

instance (r : RideRequest) : Decidable (rideInv r) := by
  unfold rideInv
  infer_instance

instance (s : SimulationState) : Decidable (stateRideInv s) := by
  unfold stateRideInv
  exact List.decidableBAll _ _

/-- Driver of the C4 reachability trace. -/
def c4Drv : Driver := { id := "d1", x := 0, y := 0 }

/-- Rider of the C4 reachability trace. -/
def c4Rdr : Rider := { id := "r1", x := 2, y := 0 }

/-- Ride of the C4 reachability trace: pickup `(2,0)`, dropoff `(2,3)`. -/
def c4Req : RideRequest :=
  { id := "ride1", rider_id := "r1",
    pickup_x := 2, pickup_y := 0, dropoff_x := 2, dropoff_y := 3 }

/-- One movement tick of the C4 trace (all moves are axis-forced, so the
random direction/coin arguments are irrelevant). -/
def c4Step (s : SimulationState) : SimulationState :=
  process_driver_movement "d1" Direction.up true s

/-- The C4 reachability trace: create driver, rider and ride, dispatch, then
five movement ticks (two to pickup, three to dropoff, completing the ride). -/
def c4Trace : Option SimulationState :=
  (SimulationState.add_driver {} c4Drv).bind fun s =>
  (s.add_rider c4Rdr).bind fun s =>
  (s.add_ride_request c4Req).bind fun s =>
  some (c4Step (c4Step (c4Step (c4Step (c4Step (dispatch_ride "ride1" s).2)))))

/-- The ride as it stands at the end of the C4 trace. -/
def c4CompletedRide : RideRequest :=
  { id := "ride1", rider_id := "r1",
    pickup_x := 2, pickup_y := 0, dropoff_x := 2, dropoff_y := 3,
    status := RideStatus.completed, assigned_driver_id := some "d1",
    rejected_driver_ids := [], created_tick := 0,
    cooldown_until_tick := none }

/-! ### C1 -/

/-- C1: the claim says that immediately after a successful `dispatch_ride`,
`auto_process_acceptance` for the chosen driver returns `true`.  On the code
it returns `false`: `dispatch_ride` has already set the driver's status to
ASSIGNED, and `should_accept_ride` demands AVAILABLE, so the automatic
acceptance check rejects every fresh assignment.  Here `dispatch_ride`
succeeds and chooses driver `d1` (standing at the pickup point, well within
its radius), yet `auto_process_acceptance` returns `false` — and the
cascading rejection even marks the ride FAILED. -/
theorem c1_auto_acceptance_rejects_fresh_assignment :
    (dispatch_ride "ride1" exS0).1 = (true, some "d1") ∧
    (auto_process_acceptance "d1" "ride1" (dispatch_ride "ride1" exS0).2).1
      = false ∧
    ((auto_process_acceptance "d1" "ride1"
        (dispatch_ride "ride1" exS0).2).2.get_ride_request "ride1").map
      RideRequest.status = some RideStatus.failed := by
  decide

/-! ### C2 -/

/-- C2: the claim says the chosen driver's `search_radius` equals the
*configured* initial radius after a successful `dispatch_ride`.  The code's
`Driver.reset_idle_state` hard-codes `search_radius = 5` and never reads
`config.initial_search_radius`; under the default configuration the
configured initial radius is 15, yet the dispatched driver ends with
radius 5 (the `idle_ticks = 0` half of the claim does hold). -/
theorem c2_dispatch_ignores_configured_initial_radius :
    exS0.config.initial_search_radius = 15 ∧
    (dispatch_ride "ride1" exS0).1.1 = true ∧
    ((dispatch_ride "ride1" exS0).2.get_driver "d1").map
      (fun d => (d.search_radius, d.idle_ticks)) = some (5, 0) ∧
    (5 : Int) ≠ 15 := by
  decide

/-! ### C3 -/

/-- C3: the claim says `search_radius` always stays within `[1, 20]`.  The
per-tick growth in `update_driver_search_radius` caps the radius at
`config.max_search_radius`, whose default is 100, not 20 — contradicting the
Driver model's own `1 ≤ search_radius ≤ 20` field validator.  A driver that
stays AVAILABLE for 32 consecutive ticks under the default configuration
(growth every 2 idle ticks) reaches radius 21. -/
theorem c3_radius_growth_exceeds_twenty :
    c3Driver.search_radius = 5 ∧
    ({} : SimulationConfig).max_search_radius = 100 ∧
    ((fun d => update_driver_search_radius d {})^[32] c3Driver).search_radius
      = 21 ∧
    ¬((21 : Int) ≤ 20) := by
  decide

/-! ### C9 -/

/-- C9: `process_driver_response` returns `false` and leaves the state
unchanged when the driver is missing, when the ride is missing, or when the
ride's `assigned_driver_id` differs from the responding driver (the
stale/duplicate response guard). -/
theorem c9_process_driver_response_guards (driver_id ride_id : String)
    (accepted : Bool) (s : SimulationState) :
    (s.get_driver driver_id = none →
      process_driver_response driver_id ride_id accepted s = (false, s)) ∧
    (s.get_ride_request ride_id = none →
      process_driver_response driver_id ride_id accepted s = (false, s)) ∧
    (∀ d r, s.get_driver driver_id = some d →
      s.get_ride_request ride_id = some r →
      r.assigned_driver_id ≠ some driver_id →
      process_driver_response driver_id ride_id accepted s = (false, s)) := by
  refine ⟨fun h => ?_, fun h => ?_, fun d r hd hr hne => ?_⟩
  · simp only [process_driver_response, h]
  · cases hd : s.get_driver driver_id <;>
      simp only [process_driver_response, h, hd]
  · simp only [process_driver_response, hd, hr, if_pos hne]

/-- Witness for C9: concrete instances of all three guard conditions — an
unknown driver id, an unknown ride id, and a response from a driver the ride
is not assigned to (`exRide1.assigned_driver_id = none`). -/
theorem c9_process_driver_response_guards_witness :
    process_driver_response "ghost" "ride1" true exS0 = (false, exS0) ∧
    process_driver_response "d1" "ghostride" false exS0 = (false, exS0) ∧
    process_driver_response "d1" "ride1" true exS0 = (false, exS0) := by
  refine ⟨(c9_process_driver_response_guards "ghost" "ride1" true exS0).1
      (by decide),
    (c9_process_driver_response_guards "d1" "ghostride" false exS0).2.1
      (by decide),
    (c9_process_driver_response_guards "d1" "ride1" true exS0).2.2 exD1 exRide1
      (by decide) (by decide) (by decide)⟩

/-! ### C10 -/

/-- Clamping is the identity on points already inside the grid. -/
theorem clamp_to_grid_eq_self (x y grid_size : Int) (hx0 : 0 ≤ x)
    (hx1 : x ≤ grid_size - 1) (hy0 : 0 ≤ y) (hy1 : y ≤ grid_size - 1) :
    clamp_to_grid x y grid_size = (x, y) := by
  unfold clamp_to_grid
  rw [Prod.mk.injEq]
  constructor <;> omega

/-- One raw step of `move_driver_toward_target` stays on the grid and brings
the Manhattan distance to the target down by exactly one. -/
theorem move_step_spec (x y target_x target_y grid_size : Int) (coin : Bool)
    (hx0 : 0 ≤ x) (hx1 : x ≤ grid_size - 1)
    (hy0 : 0 ≤ y) (hy1 : y ≤ grid_size - 1)
    (htx0 : 0 ≤ target_x) (htx1 : target_x ≤ grid_size - 1)
    (hty0 : 0 ≤ target_y) (hty1 : target_y ≤ grid_size - 1)
    (hne : ¬(x = target_x ∧ y = target_y)) :
    0 ≤ (move_step x y target_x target_y coin).1 ∧
    (move_step x y target_x target_y coin).1 ≤ grid_size - 1 ∧
    0 ≤ (move_step x y target_x target_y coin).2 ∧
    (move_step x y target_x target_y coin).2 ≤ grid_size - 1 ∧
    manhattan_distance (move_step x y target_x target_y coin).1
        (move_step x y target_x target_y coin).2 target_x target_y + 1
      = manhattan_distance x y target_x target_y := by
  simp only [move_step, manhattan_distance]
  split_ifs <;> dsimp only <;> omega

/-- The position produced by `move_driver_toward_target` off the target: the
raw step, un-altered by the clamp. -/
theorem move_driver_toward_target_eq_step (d : Driver)
    (target_x target_y grid_size : Int) (coin : Bool)
    (hx0 : 0 ≤ d.x) (hx1 : d.x ≤ grid_size - 1)
    (hy0 : 0 ≤ d.y) (hy1 : d.y ≤ grid_size - 1)
    (htx0 : 0 ≤ target_x) (htx1 : target_x ≤ grid_size - 1)
    (hty0 : 0 ≤ target_y) (hty1 : target_y ≤ grid_size - 1)
    (hne : ¬(d.x = target_x ∧ d.y = target_y)) :
    move_driver_toward_target d target_x target_y grid_size coin
      = { d with x := (move_step d.x d.y target_x target_y coin).1,
                 y := (move_step d.x d.y target_x target_y coin).2 } := by
  obtain ⟨h1, h2, h3, h4, _⟩ := move_step_spec d.x d.y target_x target_y
    grid_size coin hx0 hx1 hy0 hy1 htx0 htx1 hty0 hty1 hne
  unfold move_driver_toward_target
  rw [if_neg hne]
  dsimp only
  rw [clamp_to_grid_eq_self _ _ _ h1 h2 h3 h4]

/-- A driver at Manhattan distance `n` from an on-grid target reaches it in
exactly `n` iterated steps. -/
theorem move_iter_reaches (target_x target_y grid_size : Int)
    (htx0 : 0 ≤ target_x) (htx1 : target_x ≤ grid_size - 1)
    (hty0 : 0 ≤ target_y) (hty1 : target_y ≤ grid_size - 1) :
    ∀ (n : Nat) (coins : Nat → Bool) (d : Driver),
      0 ≤ d.x → d.x ≤ grid_size - 1 → 0 ≤ d.y → d.y ≤ grid_size - 1 →
      manhattan_distance d.x d.y target_x target_y = (n : Int) →
      (move_iter target_x target_y grid_size coins n d).x = target_x ∧
      (move_iter target_x target_y grid_size coins n d).y = target_y := by
  intro n
  induction n with
  | zero =>
    intro coins d _ _ _ _ hdist
    unfold manhattan_distance at hdist
    unfold move_iter
    constructor <;> omega
  | succ n ih =>
    intro coins d hx0 hx1 hy0 hy1 hdist
    have hne : ¬(d.x = target_x ∧ d.y = target_y) := by
      unfold manhattan_distance at hdist
      omega
    obtain ⟨h1, h2, h3, h4, h5⟩ := move_step_spec d.x d.y target_x target_y
      grid_size (coins 0) hx0 hx1 hy0 hy1 htx0 htx1 hty0 hty1 hne
    unfold move_iter
    rw [move_driver_toward_target_eq_step d target_x target_y grid_size
      (coins 0) hx0 hx1 hy0 hy1 htx0 htx1 hty0 hty1 hne]
    exact ih (fun i => coins (i + 1)) _ h1 h2 h3 h4 (by dsimp only; omega)

/-- C10: for a driver and target both on the grid with the driver off the
target, a single `move_driver_toward_target` step (for either tie-break coin)
lands on a grid point exactly one unit of Manhattan distance closer, the
clamp never alters the chosen raw step, and iterating the move reaches the
target in exactly `calculate_eta` (= initial Manhattan distance) steps. -/
theorem c10_move_toward_target_progress (d : Driver)
    (target_x target_y grid_size : Int) (coin : Bool) (coins : Nat → Bool)
    (hx0 : 0 ≤ d.x) (hx1 : d.x ≤ grid_size - 1)
    (hy0 : 0 ≤ d.y) (hy1 : d.y ≤ grid_size - 1)
    (htx0 : 0 ≤ target_x) (htx1 : target_x ≤ grid_size - 1)
    (hty0 : 0 ≤ target_y) (hty1 : target_y ≤ grid_size - 1)
    (hne : ¬(d.x = target_x ∧ d.y = target_y)) :
    (move_driver_toward_target d target_x target_y grid_size coin
       = { d with x := (move_step d.x d.y target_x target_y coin).1,
                  y := (move_step d.x d.y target_x target_y coin).2 }) ∧
    (0 ≤ (move_driver_toward_target d target_x target_y grid_size coin).x ∧
     (move_driver_toward_target d target_x target_y grid_size coin).x
       ≤ grid_size - 1 ∧
     0 ≤ (move_driver_toward_target d target_x target_y grid_size coin).y ∧
     (move_driver_toward_target d target_x target_y grid_size coin).y
       ≤ grid_size - 1) ∧
    (manhattan_distance
        (move_driver_toward_target d target_x target_y grid_size coin).x
        (move_driver_toward_target d target_x target_y grid_size coin).y
        target_x target_y + 1
      = manhattan_distance d.x d.y target_x target_y) ∧
    ((move_iter target_x target_y grid_size coins
        (calculate_eta d.x d.y target_x target_y).toNat d).x = target_x ∧
     (move_iter target_x target_y grid_size coins
        (calculate_eta d.x d.y target_x target_y).toNat d).y = target_y) := by
  have heq := move_driver_toward_target_eq_step d target_x target_y grid_size
    coin hx0 hx1 hy0 hy1 htx0 htx1 hty0 hty1 hne
  obtain ⟨h1, h2, h3, h4, h5⟩ := move_step_spec d.x d.y target_x target_y
    grid_size coin hx0 hx1 hy0 hy1 htx0 htx1 hty0 hty1 hne
  refine ⟨heq, ?_, ?_, ?_⟩
  · rw [heq]
    exact ⟨h1, h2, h3, h4⟩
  · rw [heq]
    exact h5
  · refine move_iter_reaches target_x target_y grid_size htx0 htx1 hty0 hty1
      _ coins d hx0 hx1 hy0 hy1 ?_
    unfold calculate_eta
    unfold manhattan_distance
    omega

/-- Witness for C10: a driver at the origin, target `(2, 1)` on the default
100-grid; the step moves horizontally (larger offset), and three iterated
steps land on the target. -/
theorem c10_move_toward_target_progress_witness :
    (move_driver_toward_target { id := "w", x := 0, y := 0 } 2 1 100 true
       = { id := "w", x := 1, y := 0 }) ∧
    (move_iter 2 1 100 (fun _ => false) 3 { id := "w", x := 0, y := 0 }).x = 2 ∧
    (move_iter 2 1 100 (fun _ => false) 3 { id := "w", x := 0, y := 0 }).y = 1 := by
  have h := c10_move_toward_target_progress { id := "w", x := 0, y := 0 }
    2 1 100 true (fun _ => false) (by decide) (by decide) (by decide)
    (by decide) (by decide) (by decide) (by decide) (by decide) (by decide)
  refine ⟨?_, ?_, ?_⟩
  · rw [h.1]
    decide
  · exact h.2.2.2.1
  · exact h.2.2.2.2

/-! ### List toolkit: sort membership, lookup/update commutation -/

theorem mem_insertSorted {α : Type} (le : α → α → Bool) (x a : α) :
    ∀ l : List α, a ∈ insertSorted le x l → a = x ∨ a ∈ l := by
  intro l
  induction l with
  | nil =>
    intro h
    simp only [insertSorted, List.mem_singleton] at h
    exact Or.inl h
  | cons y ys ih =>
    intro h
    simp only [insertSorted] at h
    by_cases hc : le x y
    · rw [if_pos hc] at h
      rcases List.mem_cons.mp h with h1 | h1
      · exact Or.inl h1
      · exact Or.inr h1
    · rw [if_neg hc] at h
      rcases List.mem_cons.mp h with h1 | h1
      · exact Or.inr (List.mem_cons.mpr (Or.inl h1))
      · rcases ih h1 with h2 | h2
        · exact Or.inl h2
        · exact Or.inr (List.mem_cons.mpr (Or.inr h2))

theorem mem_stableSort {α : Type} (le : α → α → Bool) (a : α) :
    ∀ l : List α, a ∈ stableSort le l → a ∈ l := by
  intro l
  induction l with
  | nil => intro h; simp only [stableSort] at h; exact absurd h (List.not_mem_nil a)
  | cons x xs ih =>
    intro h
    simp only [stableSort] at h
    rcases mem_insertSorted _ _ _ _ h with h1 | h1
    · exact h1 ▸ List.mem_cons_self x xs
    · exact List.mem_cons.mpr (Or.inr (ih h1))

theorem findBy_updateBy_self {α : Type} (key : α → String) (i : String)
    (f : α → α) (hf : ∀ a, key a = i → key (f a) = i) :
    ∀ l : List α, findBy key i (updateBy key i f l) = (findBy key i l).map f := by
  intro l
  induction l with
  | nil => rfl
  | cons a t ih =>
    simp only [findBy, updateBy, List.map_cons]
    by_cases h : key a = i
    · rw [if_pos h]
      rw [List.find?_cons_of_pos _ (by simp [hf a h]),
        List.find?_cons_of_pos _ (by simp [h])]
      rfl
    · rw [if_neg h]
      rw [List.find?_cons_of_neg _ (by simp [h]),
        List.find?_cons_of_neg _ (by simp [h])]
      simpa [findBy, updateBy] using ih

theorem findBy_updateBy_ne {α : Type} (key : α → String) (i j : String)
    (f : α → α) (hf : ∀ a, key a = i → key (f a) = i) (hij : i ≠ j) :
    ∀ l : List α, findBy key j (updateBy key i f l) = findBy key j l := by
  intro l
  induction l with
  | nil => rfl
  | cons a t ih =>
    simp only [findBy, updateBy, List.map_cons]
    by_cases h : key a = i
    · rw [if_pos h]
      rw [List.find?_cons_of_neg _ (by simp [hf a h]; exact hij),
        List.find?_cons_of_neg _ (by simp [h]; exact hij)]
      simpa [findBy, updateBy] using ih
    · rw [if_neg h]
      by_cases h2 : key a = j
      · rw [List.find?_cons_of_pos _ (by simp [h2]),
          List.find?_cons_of_pos _ (by simp [h2])]
      · rw [List.find?_cons_of_neg _ (by simp [h2]),
          List.find?_cons_of_neg _ (by simp [h2])]
        simpa [findBy, updateBy] using ih

theorem findBy_eq_some {α : Type} (key : α → String) (i : String) (l : List α)
    (a : α) (h : findBy key i l = some a) : a ∈ l ∧ key a = i := by
  refine ⟨List.mem_of_find?_eq_some h, ?_⟩
  have := List.find?_some h
  simpa using this

/-! ### C5 -/

/-- C5: a successful `dispatch_ride` picks its driver from the eligible list:
the chosen driver is one of the state's drivers, has status AVAILABLE at
selection time, and its id is not in the ride's `rejected_driver_ids`. -/
theorem c5_dispatch_assigns_only_available_unrejected (s : SimulationState)
    (ride_id driver_id : String) (s' : SimulationState)
    (h : dispatch_ride ride_id s = ((true, some driver_id), s')) :
    (∃ drv ∈ s.drivers, drv.id = driver_id ∧
      drv.status = DriverStatus.available) ∧
    (∃ r, s.get_ride_request ride_id = some r ∧
      driver_id ∉ r.rejected_driver_ids) := by
  unfold dispatch_ride at h
  split at h
  next => simp at h
  next ride hr =>
    dsimp only at h
    split_ifs at h with h1 h2 h3 h4
    · simp at h
    · simp at h
    · simp at h
    · simp at h
    split at h
    next => simp at h
    next best rest hp =>
      have hid : best.id = driver_id := by
        have := congrArg (fun p => p.1.2) h
        simpa using this
      have hbest_mem : best ∈ find_eligible_drivers ride
          s.get_available_drivers := by
        have hmem : best ∈ prioritize_drivers (find_eligible_drivers ride
            s.get_available_drivers) ride s.config.fairness_penalty := by
          rw [hp]; exact List.mem_cons_self best rest
        unfold prioritize_drivers at hmem
        rw [if_neg (by simpa using h4)] at hmem
        exact mem_stableSort _ _ _ hmem
      unfold find_eligible_drivers at hbest_mem
      have hfilter := List.mem_filter.mp hbest_mem
      have havail : best ∈ s.get_available_drivers := hfilter.1
      have hprops := hfilter.2
      simp only [Bool.and_eq_true, beq_iff_eq, Bool.not_eq_true'] at hprops
      have hnotrej : driver_id ∉ ride.rejected_driver_ids := by
        rw [← hid]
        intro hmem
        have hcont : ride.rejected_driver_ids.contains best.id = true :=
          List.elem_iff.mpr hmem
        rw [hprops.1.2] at hcont
        exact absurd hcont (by simp)
      have hdmem : best ∈ s.drivers := by
        unfold SimulationState.get_available_drivers at havail
        exact (List.mem_filter.mp havail).1
      exact ⟨⟨best, hdmem, hid, hprops.1.1⟩, ⟨ride, hr, hnotrej⟩⟩

/-- Witness for C5: the concrete dispatch of `exRide1` to driver `d1`. -/
theorem c5_dispatch_assigns_only_available_unrejected_witness :
    (∃ drv ∈ exS0.drivers, drv.id = "d1" ∧
      drv.status = DriverStatus.available) ∧
    (∃ r, exS0.get_ride_request "ride1" = some r ∧
      "d1" ∉ r.rejected_driver_ids) := by
  have h1 : (dispatch_ride "ride1" exS0).1 = (true, some "d1") := by decide
  have h : dispatch_ride "ride1" exS0
      = ((true, some "d1"), (dispatch_ride "ride1" exS0).2) := by
    rw [← h1]
  exact c5_dispatch_assigns_only_available_unrejected exS0 "ride1" "d1" _ h

/-! ### C6 -/

/-- Inserting into a `created_tick`-sorted ride list keeps it sorted. -/
theorem pairwise_insertSorted_created (x : RideRequest) :
    ∀ l : List RideRequest,
      l.Pairwise (fun a b => a.created_tick ≤ b.created_tick) →
      (insertSorted (fun a b => decide (a.created_tick ≤ b.created_tick)) x
        l).Pairwise (fun a b => a.created_tick ≤ b.created_tick) := by
  intro l
  induction l with
  | nil =>
    intro _
    simp [insertSorted]
  | cons y ys ih =>
    intro hl
    rcases List.pairwise_cons.mp hl with ⟨hy, hys⟩
    simp only [insertSorted]
    by_cases hc : x.created_tick ≤ y.created_tick
    · rw [if_pos (by simpa using hc)]
      refine List.pairwise_cons.mpr ⟨?_, hl⟩
      intro z hz
      rcases List.mem_cons.mp hz with rfl | hz'
      · exact hc
      · exact le_trans hc (hy z hz')
    · rw [if_neg (by simpa using hc)]
      refine List.pairwise_cons.mpr ⟨?_, ih hys⟩
      intro z hz
      rcases mem_insertSorted _ _ _ _ hz with rfl | hz'
      · omega
      · exact hy z hz'

/-- `sortRidesByCreated` always produces a `created_tick`-ascending list. -/
theorem sortRidesByCreated_pairwise :
    ∀ l : List RideRequest,
      (sortRidesByCreated l).Pairwise (fun a b => a.created_tick ≤ b.created_tick) := by
  intro l
  induction l with
  | nil => exact List.Pairwise.nil
  | cons x xs ih => exact pairwise_insertSorted_created x _ ih

/-- C6: `batch_dispatch` processes the waiting, non-cooldown rides in
`created_tick`-ascending order (the list it folds `dispatch_ride` over is
always sorted by `created_tick`), and in the concrete contested scenario —
rides created at ticks 1 and 2, both eligible for the same single available
driver, the newer one stored first — the tick-1 ride wins the driver and the
tick-2 ride stays WAITING. -/
theorem c6_batch_dispatch_fifo_order :
    (∀ s : SimulationState,
      (sortRidesByCreated s.get_waiting_rides).Pairwise
        (fun a b => a.created_tick ≤ b.created_tick)) ∧
    (batch_dispatch c6S).1 = [("rideA", "d1")] ∧
    ((batch_dispatch c6S).2.get_ride_request "rideA").map
      (fun r => (r.status, r.assigned_driver_id))
      = some (RideStatus.assigned, some "d1") ∧
    ((batch_dispatch c6S).2.get_ride_request "rideB").map RideRequest.status
      = some RideStatus.waiting := by
  refine ⟨fun s => sortRidesByCreated_pairwise _, ?_, ?_, ?_⟩ <;> decide

/-! ### C7 -/

/-- `dispatch_ride` either succeeds or returns `((false, none))` with the
state untouched (every failure branch returns the input state). -/
theorem dispatch_ride_cases (ride_id : String) (s : SimulationState) :
    (dispatch_ride ride_id s).1.1 = true ∨
    dispatch_ride ride_id s = ((false, none), s) := by
  unfold dispatch_ride
  split
  · exact Or.inr rfl
  · dsimp only
    split_ifs
    · exact Or.inr rfl
    · exact Or.inr rfl
    · exact Or.inr rfl
    · exact Or.inr rfl
    split
    · exact Or.inr rfl
    · exact Or.inl rfl

/-- A failed `dispatch_ride` leaves the state untouched. -/
theorem dispatch_ride_fail_state (ride_id : String) (s : SimulationState)
    (h : (dispatch_ride ride_id s).1.1 = false) :
    (dispatch_ride ride_id s).2 = s := by
  rcases dispatch_ride_cases ride_id s with hc | hc
  · rw [hc] at h; cases h
  · rw [hc]

/-- Looking up the updated ride: the stored value, transformed. -/
theorem get_ride_request_update_ride (s : SimulationState) (rid : String)
    (f : RideRequest → RideRequest) (hf : ∀ r, r.id = rid → (f r).id = rid) :
    (s.update_ride rid f).get_ride_request rid
      = (s.get_ride_request rid).map f := by
  unfold SimulationState.get_ride_request SimulationState.update_ride
  dsimp only
  exact findBy_updateBy_self RideRequest.id rid f hf s.ride_requests

/-- Looking up a different ride after an update: unchanged. -/
theorem get_ride_request_update_ride_ne (s : SimulationState) (rid rid2 : String)
    (f : RideRequest → RideRequest) (hf : ∀ r, r.id = rid → (f r).id = rid)
    (hne : rid ≠ rid2) :
    (s.update_ride rid f).get_ride_request rid2 = s.get_ride_request rid2 := by
  unfold SimulationState.get_ride_request SimulationState.update_ride
  dsimp only
  exact findBy_updateBy_ne RideRequest.id rid rid2 f hf hne s.ride_requests

/-- Looking up the updated driver: the stored value, transformed. -/
theorem get_driver_update_driver (s : SimulationState) (did : String)
    (f : Driver → Driver) (hf : ∀ d, d.id = did → (f d).id = did) :
    (s.update_driver did f).get_driver did = (s.get_driver did).map f := by
  unfold SimulationState.get_driver SimulationState.update_driver
  dsimp only
  exact findBy_updateBy_self Driver.id did f hf s.drivers

/-- Looking up a different driver after an update: unchanged. -/
theorem get_driver_update_driver_ne (s : SimulationState) (did did2 : String)
    (f : Driver → Driver) (hf : ∀ d, d.id = did → (f d).id = did)
    (hne : did ≠ did2) :
    (s.update_driver did f).get_driver did2 = s.get_driver did2 := by
  unfold SimulationState.get_driver SimulationState.update_driver
  dsimp only
  exact findBy_updateBy_ne Driver.id did did2 f hf hne s.drivers

/-- Looking up the updated rider: the stored value, transformed. -/
theorem get_rider_update_rider (s : SimulationState) (rid : String)
    (f : Rider → Rider) (hf : ∀ r, r.id = rid → (f r).id = rid) :
    (s.update_rider rid f).get_rider rid = (s.get_rider rid).map f := by
  unfold SimulationState.get_rider SimulationState.update_rider
  dsimp only
  exact findBy_updateBy_self Rider.id rid f hf s.riders

/-- A successful `get_driver` returns a member of the list bearing the id. -/
theorem get_driver_eq_some (s : SimulationState) (did : String) (d : Driver)
    (h : s.get_driver did = some d) : d ∈ s.drivers ∧ d.id = did :=
  findBy_eq_some Driver.id did s.drivers d h

/-- C7: after a rejection is recorded, if the fallback dispatch fails and
every driver still AVAILABLE in the resulting state is in the ride's
rejected set, the ride has been marked FAILED. -/
theorem c7_fallback_exhaustion_fails_ride (s : SimulationState)
    (ride_id rejected_id : String) (r0 : RideRequest)
    (h0 : s.get_ride_request ride_id = some r0)
    (hfail : (attempt_fallback_dispatch ride_id rejected_id s).1.1 = false)
    (r' : RideRequest)
    (hr' : (attempt_fallback_dispatch ride_id rejected_id s).2.get_ride_request
      ride_id = some r')
    (hall : ∀ d ∈ (attempt_fallback_dispatch ride_id rejected_id
      s).2.get_available_drivers, d.id ∈ r'.rejected_driver_ids) :
    r'.status = RideStatus.failed := by
  unfold attempt_fallback_dispatch at hfail hr' hall
  rw [h0] at hfail hr' hall
  dsimp only at hfail hr' hall
  split_ifs at hfail hr' hall with h1 h2
  · -- fallback dispatch succeeded: contradicts hfail
    dsimp only at hfail
    rw [hfail] at h1
    exact absurd h1 (by simp)
  · -- dispatch failed and every available driver has rejected: ride failed
    rw [get_ride_request_update_ride _ ride_id RideRequest.fail
      (fun r hr => hr)] at hr'
    rcases Option.map_eq_some'.mp hr' with ⟨r4, _, hfr⟩
    rw [← hfr]
    rfl
  · -- dispatch failed but some available driver has not rejected:
    -- contradicts hall
    exfalso
    rw [hr'] at h2
    dsimp only at h2
    apply h2
    rw [List.all_eq_true]
    intro d hdmem
    exact List.elem_iff.mpr (hall d hdmem)

/-! ### C8 -/

/-- `move_driver_randomly` only changes the position. -/
theorem move_driver_randomly_fields (d : Driver) (dir : Direction)
    (grid_size : Int) :
    (move_driver_randomly d dir grid_size).id = d.id ∧
    (move_driver_randomly d dir grid_size).completed_rides
      = d.completed_rides := by
  unfold move_driver_randomly
  split_ifs <;> exact ⟨rfl, rfl⟩

/-- `move_driver_toward_target` only changes the position. -/
theorem move_driver_toward_target_fields (d : Driver)
    (target_x target_y grid_size : Int) (coin : Bool) :
    (move_driver_toward_target d target_x target_y grid_size coin).id = d.id ∧
    (move_driver_toward_target d target_x target_y grid_size coin).completed_rides
      = d.completed_rides := by
  unfold move_driver_toward_target
  split_ifs <;> exact ⟨rfl, rfl⟩

/-- `update_driver_search_radius` only changes idle ticks and radius. -/
theorem update_driver_search_radius_fields (d : Driver)
    (config : SimulationConfig) :
    (update_driver_search_radius d config).id = d.id ∧
    (update_driver_search_radius d config).completed_rides
      = d.completed_rides := by
  unfold update_driver_search_radius
  dsimp only
  split_ifs <;> exact ⟨rfl, rfl⟩

/-- Looking up any driver after an `update_driver`: either it is the updated
entry (same id) or it is untouched. -/
theorem get_driver_update_cases (t : SimulationState) (i : String)
    (f : Driver → Driver) (hf : ∀ a, a.id = i → (f a).id = i)
    (jid : String) (d2 : Driver) (h : t.get_driver jid = some d2) :
    (jid = i ∧ (t.update_driver i f).get_driver jid = some (f d2)) ∨
    (jid ≠ i ∧ (t.update_driver i f).get_driver jid = some d2) := by
  by_cases hj : jid = i
  · subst hj
    refine Or.inl ⟨rfl, ?_⟩
    rw [get_driver_update_driver t jid f hf, h]
    rfl
  · refine Or.inr ⟨hj, ?_⟩
    rw [get_driver_update_driver_ne t i jid f hf (fun hh => hj hh.symm)]
    exact h

/-- `update_driver` preserves `completed_rides` of every stored driver, as
long as `f` preserves the counter of the entry it is applied to. -/
theorem update_driver_preserves_completed_at (t : SimulationState) (i : String)
    (f : Driver → Driver) (hf : ∀ a, a.id = i → (f a).id = i)
    (jid : String) (d2 : Driver) (h : t.get_driver jid = some d2)
    (hfc : jid = i → (f d2).completed_rides = d2.completed_rides) :
    ∃ d2', (t.update_driver i f).get_driver jid = some d2' ∧
      d2'.completed_rides = d2.completed_rides := by
  rcases get_driver_update_cases t i f hf jid d2 h with ⟨hj, hres⟩ | ⟨_, hres⟩
  · exact ⟨f d2, hres, hfc hj⟩
  · exact ⟨d2, hres, rfl⟩

/-- Outside the completion case, `process_driver_movement` never changes any
driver's `completed_rides`. -/
theorem movement_preserves_completed (t : SimulationState) (dir : Direction)
    (coin : Bool) (did : String) (hnc : ¬ completesThisTick did coin t)
    (jid : String) (d2 : Driver) (h : t.get_driver jid = some d2) :
    ∃ d2', (process_driver_movement did dir coin t).get_driver jid = some d2' ∧
      d2'.completed_rides = d2.completed_rides := by
  unfold process_driver_movement
  cases hget : t.get_driver did with
  | none => exact ⟨d2, h, rfl⟩
  | some dd =>
    dsimp only
    have hddid : dd.id = did := (get_driver_eq_some t did dd hget).2
    cases hs : dd.status with
    | available =>
      dsimp only
      have hid1 := (move_driver_randomly_fields dd dir t.config.grid_size).1
      have hc1 := (move_driver_randomly_fields dd dir t.config.grid_size).2
      have hid2 := (update_driver_search_radius_fields
        (move_driver_randomly dd dir t.config.grid_size) t.config).1
      have hc2 := (update_driver_search_radius_fields
        (move_driver_randomly dd dir t.config.grid_size) t.config).2
      refine update_driver_preserves_completed_at t did _
        (fun a _ => by rw [hid2, hid1, hddid]) jid d2 h (fun hj => ?_)
      have hdd2 : d2 = dd := by
        rw [hj] at h
        rw [h] at hget
        exact Option.some.inj hget
      rw [hc2, hc1, hdd2]
    | assigned =>
      dsimp only
      cases hc2 : dd.current_ride_id with
      | none => exact ⟨d2, h, rfl⟩
      | some rid2 =>
        dsimp only
        cases hr2 : t.get_ride_request rid2 with
        | none => exact ⟨d2, h, rfl⟩
        | some ride2 =>
          dsimp only
          have hidM := (move_driver_toward_target_fields dd ride2.pickup_x
            ride2.pickup_y t.config.grid_size coin).1
          have hcM := (move_driver_toward_target_fields dd ride2.pickup_x
            ride2.pickup_y t.config.grid_size coin).2
          obtain ⟨d3, hres1, hcomp1⟩ := update_driver_preserves_completed_at t
            did (fun _ => move_driver_toward_target dd ride2.pickup_x
              ride2.pickup_y t.config.grid_size coin)
            (fun a _ => by rw [hidM, hddid]) jid d2 h
            (fun hj => by
              have hdd2 : d2 = dd := by
                rw [hj] at h
                rw [h] at hget
                exact Option.some.inj hget
              rw [hcM, hdd2])
          split
          · obtain ⟨d4, hres2, hcomp2⟩ := update_driver_preserves_completed_at
              _ did (fun dd3 => { dd3 with status := DriverStatus.on_trip })
              (fun a ha => ha) jid d3 hres1 (fun _ => rfl)
            exact ⟨d4, hres2, hcomp2.trans hcomp1⟩
          · exact ⟨d3, hres1, hcomp1⟩
    | on_trip =>
      dsimp only
      cases hc2 : dd.current_ride_id with
      | none => exact ⟨d2, h, rfl⟩
      | some rid2 =>
        dsimp only
        cases hr2 : t.get_ride_request rid2 with
        | none => exact ⟨d2, h, rfl⟩
        | some ride2 =>
          dsimp only
          have hidM := (move_driver_toward_target_fields dd ride2.dropoff_x
            ride2.dropoff_y t.config.grid_size coin).1
          have hcM := (move_driver_toward_target_fields dd ride2.dropoff_x
            ride2.dropoff_y t.config.grid_size coin).2
          obtain ⟨d3, hres1, hcomp1⟩ := update_driver_preserves_completed_at t
            did (fun _ => move_driver_toward_target dd ride2.dropoff_x
              ride2.dropoff_y t.config.grid_size coin)
            (fun a _ => by rw [hidM, hddid]) jid d2 h
            (fun hj => by
              have hdd2 : d2 = dd := by
                rw [hj] at h
                rw [h] at hget
                exact Option.some.inj hget
              rw [hcM, hdd2])
          split
          · rename_i hreached
            exact absurd ⟨dd, rid2, ride2, hget, hs, hc2, hr2, hreached.1,
              hreached.2⟩ hnc
          · exact ⟨d3, hres1, hcomp1⟩
    | offline => exact ⟨d2, h, rfl⟩

/-- `dispatch_ride` never changes any driver's `completed_rides`. -/
theorem dispatch_preserves_completed (ride_id : String) (t : SimulationState)
    (jid : String) (d2 : Driver) (h : t.get_driver jid = some d2) :
    ∃ d2', (dispatch_ride ride_id t).2.get_driver jid = some d2' ∧
      d2'.completed_rides = d2.completed_rides := by
  unfold dispatch_ride
  split
  · exact ⟨d2, h, rfl⟩
  · dsimp only
    split_ifs
    · exact ⟨d2, h, rfl⟩
    · exact ⟨d2, h, rfl⟩
    · exact ⟨d2, h, rfl⟩
    · exact ⟨d2, h, rfl⟩
    split
    · exact ⟨d2, h, rfl⟩
    · dsimp only
      exact update_driver_preserves_completed_at _ _ _
        (by intro a ha; exact ha) jid d2 h (by intro hj; rfl)

/-- `attempt_fallback_dispatch` never changes any driver's `completed_rides`. -/
theorem fallback_preserves_completed (ride_id rejected_id : String)
    (t : SimulationState) (jid : String) (d2 : Driver)
    (h : t.get_driver jid = some d2) :
    ∃ d2', (attempt_fallback_dispatch ride_id rejected_id t).2.get_driver jid
        = some d2' ∧
      d2'.completed_rides = d2.completed_rides := by
  unfold attempt_fallback_dispatch
  split
  · exact ⟨d2, h, rfl⟩
  · dsimp only
    obtain ⟨d2', hres, hcomp⟩ := dispatch_preserves_completed ride_id
      (((t.update_ride ride_id fun r =>
        r.add_rejection rejected_id t.current_tick
          t.config.rejection_cooldown_ticks).update_ride ride_id fun r =>
        { r with status := RideStatus.waiting,
                 assigned_driver_id := none }).update_ride ride_id fun r =>
        { r with cooldown_until_tick := none }) jid d2 h
    split_ifs
    · exact ⟨d2', hres, hcomp⟩
    · exact ⟨d2', hres, hcomp⟩
    · exact ⟨d2', hres, hcomp⟩

/-- `process_driver_response` never changes any driver's `completed_rides`. -/
theorem response_preserves_completed (driver_id ride_id : String)
    (accepted : Bool) (t : SimulationState) (jid : String) (d2 : Driver)
    (h : t.get_driver jid = some d2) :
    ∃ d2', (process_driver_response driver_id ride_id accepted
        t).2.get_driver jid = some d2' ∧
      d2'.completed_rides = d2.completed_rides := by
  unfold process_driver_response
  split
  · exact ⟨d2, h, rfl⟩
  · exact ⟨d2, h, rfl⟩
  · dsimp only
    split_ifs
    · exact ⟨d2, h, rfl⟩
    · dsimp only
      exact update_driver_preserves_completed_at _ _ _
        (by intro a ha; exact ha) jid d2 h (by intro hj; rfl)
    · dsimp only
      obtain ⟨d3, hres1, hcomp1⟩ := update_driver_preserves_completed_at t
        driver_id (fun d =>
          { d with status := DriverStatus.available,
                   current_ride_id := none })
        (fun a ha => ha) jid d2 h (fun _ => rfl)
      obtain ⟨d4, hres2, hcomp2⟩ := fallback_preserves_completed ride_id
        driver_id (((t.update_driver driver_id fun d =>
          { d with status := DriverStatus.available,
                   current_ride_id := none }).update_ride ride_id fun r =>
          r.add_rejection driver_id
            (t.update_driver driver_id fun d =>
              { d with status := DriverStatus.available,
                       current_ride_id := none }).current_tick
            (t.update_driver driver_id fun d =>
              { d with status := DriverStatus.available,
                       current_ride_id := none
              }).config.rejection_cooldown_ticks).update_ride ride_id fun r =>
          { r with status := RideStatus.waiting,
                   assigned_driver_id := none }) jid d3 hres1
      exact ⟨d4, hres2, hcomp2.trans hcomp1⟩

/-- C8: when an ON_TRIP driver's move lands exactly on the dropoff point,
the completion step increments the fulfilling driver's `completed_rides` by
exactly one (returning it to AVAILABLE with no current ride), marks the ride
COMPLETED and the rider COMPLETED; and `completed_rides` changes through no
other path — every non-completing `process_driver_movement`, every
`dispatch_ride`, and every `process_driver_response` leaves every driver's
counter unchanged. -/
theorem c8_completion_increments_once (s : SimulationState)
    (driver_id rid : String) (dir : Direction) (coin : Bool)
    (d : Driver) (hd : s.get_driver driver_id = some d)
    (hstat : d.status = DriverStatus.on_trip)
    (hcur : d.current_ride_id = some rid)
    (r : RideRequest) (hr : s.get_ride_request rid = some r)
    (rr : Rider) (hrr : s.get_rider r.rider_id = some rr)
    (M : Driver)
    (hM : move_driver_toward_target d r.dropoff_x r.dropoff_y
      s.config.grid_size coin = M)
    (hreach : M.x = r.dropoff_x ∧ M.y = r.dropoff_y) :
    (∃ d', (process_driver_movement driver_id dir coin s).get_driver driver_id
        = some d' ∧ d'.completed_rides = d.completed_rides + 1 ∧
        d'.status = DriverStatus.available ∧ d'.current_ride_id = none) ∧
    (∃ r', (process_driver_movement driver_id dir coin s).get_ride_request rid
        = some r' ∧ r'.status = RideStatus.completed) ∧
    (∃ rr', (process_driver_movement driver_id dir coin s).get_rider r.rider_id
        = some rr' ∧ rr'.status = RiderStatus.completed) ∧
    (∀ (t : SimulationState) (dir2 : Direction) (coin2 : Bool) (did2 : String),
      ¬ completesThisTick did2 coin2 t →
      ∀ jid dj, t.get_driver jid = some dj →
      ∃ dj', (process_driver_movement did2 dir2 coin2 t).get_driver jid
          = some dj' ∧ dj'.completed_rides = dj.completed_rides) ∧
    (∀ (rid2 : String) (t : SimulationState) (jid : String) (dj : Driver),
      t.get_driver jid = some dj →
      ∃ dj', (dispatch_ride rid2 t).2.get_driver jid = some dj' ∧
        dj'.completed_rides = dj.completed_rides) ∧
    (∀ (did2 rid2 : String) (acc : Bool) (t : SimulationState) (jid : String)
      (dj : Driver), t.get_driver jid = some dj →
      ∃ dj', (process_driver_response did2 rid2 acc t).2.get_driver jid
          = some dj' ∧ dj'.completed_rides = dj.completed_rides) := by
  have hdid : d.id = driver_id := (get_driver_eq_some s driver_id d hd).2
  have hMid : M.id = driver_id := by
    rw [← hM, (move_driver_toward_target_fields d r.dropoff_x r.dropoff_y
      s.config.grid_size coin).1]
    exact hdid
  have hMcomp : M.completed_rides = d.completed_rides := by
    rw [← hM]
    exact (move_driver_toward_target_fields d r.dropoff_x r.dropoff_y
      s.config.grid_size coin).2
  have hstate : process_driver_movement driver_id dir coin s
      = complete_ride driver_id rid
        ((s.update_driver driver_id fun _ => M).update_rider r.rider_id
          fun rr2 => { rr2 with x := M.x, y := M.y }) := by
    unfold process_driver_movement
    rw [hd]
    dsimp only
    rw [hstat]
    dsimp only
    rw [hcur]
    dsimp only
    rw [hr]
    dsimp only
    rw [hM, if_pos hreach]
  have hS2d : ((s.update_driver driver_id fun _ => M).update_rider r.rider_id
      fun rr2 => { rr2 with x := M.x, y := M.y }).get_driver driver_id
      = some M := by
    show (s.update_driver driver_id fun _ => M).get_driver driver_id = some M
    rw [get_driver_update_driver s driver_id (fun _ => M) (fun a _ => hMid), hd]
    rfl
  have hS2r : ((s.update_driver driver_id fun _ => M).update_rider r.rider_id
      fun rr2 => { rr2 with x := M.x, y := M.y }).get_ride_request rid
      = some r := hr
  have hS2rr : ((s.update_driver driver_id fun _ => M).update_rider r.rider_id
      fun rr2 => { rr2 with x := M.x, y := M.y }).get_rider r.rider_id
      = some { rr with x := M.x, y := M.y } := by
    have h1 : (s.update_driver driver_id fun _ => M).get_rider r.rider_id
        = some rr := hrr
    rw [get_rider_update_rider _ r.rider_id
      (fun rr2 => { rr2 with x := M.x, y := M.y }) (fun a ha => ha), h1]
    rfl
  have hX : (((s.update_driver driver_id fun _ => M).update_rider r.rider_id
      fun rr2 => { rr2 with x := M.x, y := M.y }).update_ride rid
      RideRequest.complete).get_ride_request rid
      = some (RideRequest.complete r) := by
    rw [get_ride_request_update_ride _ rid RideRequest.complete
      (fun a ha => ha), hS2r]
    rfl
  have hYd : ((((s.update_driver driver_id fun _ => M).update_rider r.rider_id
      fun rr2 => { rr2 with x := M.x, y := M.y }).update_ride rid
      RideRequest.complete).update_driver driver_id fun dd =>
      { dd with status := DriverStatus.available, current_ride_id := none,
                completed_rides := dd.completed_rides + 1,
                idle_ticks := 0 }).get_driver driver_id
      = some { M with status := DriverStatus.available,
                      current_ride_id := none,
                      completed_rides := M.completed_rides + 1,
                      idle_ticks := 0 } := by
    rw [get_driver_update_driver _ driver_id
      (fun dd => { dd with status := DriverStatus.available,
                           current_ride_id := none,
                           completed_rides := dd.completed_rides + 1,
                           idle_ticks := 0 }) (fun a ha => ha)]
    rw [show ((((s.update_driver driver_id fun _ => M).update_rider r.rider_id
      fun rr2 => { rr2 with x := M.x, y := M.y }).update_ride rid
      RideRequest.complete)).get_driver driver_id = some M from hS2d]
    rfl
  have hYr : ((((s.update_driver driver_id fun _ => M).update_rider r.rider_id
      fun rr2 => { rr2 with x := M.x, y := M.y }).update_ride rid
      RideRequest.complete).update_driver driver_id fun dd =>
      { dd with status := DriverStatus.available, current_ride_id := none,
                completed_rides := dd.completed_rides + 1,
                idle_ticks := 0 }).get_ride_request rid
      = some (RideRequest.complete r) := hX
  have hYrr : ((((s.update_driver driver_id fun _ => M).update_rider r.rider_id
      fun rr2 => { rr2 with x := M.x, y := M.y }).update_ride rid
      RideRequest.complete).update_driver driver_id fun dd =>
      { dd with status := DriverStatus.available, current_ride_id := none,
                completed_rides := dd.completed_rides + 1,
                idle_ticks := 0 }).get_rider r.rider_id
      = some { rr with x := M.x, y := M.y } := hS2rr
  have hcr : complete_ride driver_id rid
      ((s.update_driver driver_id fun _ => M).update_rider r.rider_id
        fun rr2 => { rr2 with x := M.x, y := M.y })
      = ((((s.update_driver driver_id fun _ => M).update_rider r.rider_id
        fun rr2 => { rr2 with x := M.x, y := M.y }).update_ride rid
        RideRequest.complete).update_driver driver_id fun dd =>
        { dd with status := DriverStatus.available, current_ride_id := none,
                  completed_rides := dd.completed_rides + 1,
                  idle_ticks := 0 }).update_rider
        (RideRequest.complete r).rider_id
        fun rr3 => { rr3 with status := RiderStatus.completed } := by
    unfold complete_ride
    dsimp only
    rw [hYr]
  refine ⟨?_, ?_, ?_,
    fun t dir2 coin2 did2 hnc jid dj hj =>
      movement_preserves_completed t dir2 coin2 did2 hnc jid dj hj,
    fun rid2 t jid dj hj => dispatch_preserves_completed rid2 t jid dj hj,
    fun did2 rid2 acc t jid dj hj =>
      response_preserves_completed did2 rid2 acc t jid dj hj⟩
  · rw [hstate, hcr]
    refine ⟨_, hYd, ?_, rfl, rfl⟩
    show M.completed_rides + 1 = d.completed_rides + 1
    rw [hMcomp]
  · rw [hstate, hcr]
    exact ⟨RideRequest.complete r, hYr, rfl⟩
  · rw [hstate, hcr]
    have h5 : (((((s.update_driver driver_id fun _ => M).update_rider
        r.rider_id fun rr2 => { rr2 with x := M.x, y := M.y }).update_ride rid
        RideRequest.complete).update_driver driver_id fun dd =>
        { dd with status := DriverStatus.available, current_ride_id := none,
                  completed_rides := dd.completed_rides + 1,
                  idle_ticks := 0 }).update_rider r.rider_id
        fun rr3 => { rr3 with status := RiderStatus.completed }).get_rider
        r.rider_id
        = some { { rr with x := M.x, y := M.y } with
                 status := RiderStatus.completed } := by
      rw [get_rider_update_rider _ r.rider_id
        (fun rr3 => { rr3 with status := RiderStatus.completed })
        (fun a ha => ha), hYrr]
      rfl
    exact ⟨_, h5, rfl⟩

/-- Witness for C8: the single movement tick of the ON_TRIP driver at
`(2, 2)` reaches the dropoff `(2, 3)` and completes: `completed_rides` goes
from 0 to 1, the driver returns to AVAILABLE, and ride and rider both end
COMPLETED. -/
theorem c8_completion_increments_once_witness :
    (∃ d', (process_driver_movement "dT" Direction.up true c8S).get_driver "dT"
        = some d' ∧ d'.completed_rides = 1 ∧
        d'.status = DriverStatus.available ∧ d'.current_ride_id = none) ∧
    (∃ r', (process_driver_movement "dT" Direction.up true
        c8S).get_ride_request "rideT" = some r' ∧
        r'.status = RideStatus.completed) ∧
    (∃ rr', (process_driver_movement "dT" Direction.up true c8S).get_rider "rT"
        = some rr' ∧ rr'.status = RiderStatus.completed) := by
  have h := c8_completion_increments_once c8S "dT" "rideT" Direction.up true
    c8D (by decide) (by decide) (by decide) c8Ride (by decide) c8Rider
    (by decide)
    { id := "dT", x := 2, y := 3, status := DriverStatus.on_trip,
      current_ride_id := some "rideT" }
    (by decide) (by decide)
  exact ⟨h.1, h.2.1, h.2.2.1⟩

/-- Witness for C7, which is also the spec's scenario: the single available
driver rejects the only ride it is eligible for; `attempt_fallback_dispatch`
returns failure and the ride ends FAILED. -/
theorem c7_fallback_exhaustion_fails_ride_witness :
    (attempt_fallback_dispatch "ride1" "d1" exS0).1 = (false, none) ∧
    c7FailedRide.status = RideStatus.failed := by
  refine ⟨by decide, ?_⟩
  exact c7_fallback_exhaustion_fails_ride exS0 "ride1" "d1" exRide1 (by decide)
    (by decide) c7FailedRide (by decide) (by decide)

/-! ### C4 -/

/-- C4 counterexample: a reachable world (driver/rider/ride creation, one
dispatch, five movement ticks) holds a COMPLETED ride whose
`assigned_driver_id` is still `some "d1"`, so "non-null iff status is
ASSIGNED/PICKUP/ON_TRIP" is false: `RideRequest.complete` never clears the
assigned driver. -/
theorem c4_completed_ride_keeps_assigned_driver :
    c4Trace.isSome = true ∧
    (c4Trace.getD {}).get_ride_request "ride1" = some c4CompletedRide ∧
    c4CompletedRide.status = RideStatus.completed ∧
    c4CompletedRide.assigned_driver_id = some "d1" ∧
    ¬(∀ r, (c4Trace.getD {}).get_ride_request "ride1" = some r →
      (r.assigned_driver_id ≠ none ↔
        (r.status = RideStatus.assigned ∨ r.status = RideStatus.pickup ∨
         r.status = RideStatus.on_trip))) := by
  refine ⟨by decide, by decide, by decide, by decide, fun hall => ?_⟩
  have h := (hall c4CompletedRide (by decide)).mp (by decide)
  exact absurd h (by decide)

/-- Updating rides with a pointwise `rideInv`-preserving function keeps the
state invariant. -/
theorem stateRideInv_update_of (s : SimulationState) (rid : String)
    (f : RideRequest → RideRequest) (hs : stateRideInv s)
    (hf : ∀ r, rideInv r → rideInv (f r)) :
    stateRideInv (s.update_ride rid f) := by
  intro r' hr'
  unfold SimulationState.update_ride updateBy at hr'
  dsimp only at hr'
  rcases List.mem_map.mp hr' with ⟨a, ha, rfl⟩
  by_cases hk : a.id = rid
  · rw [if_pos hk]
    exact hf a (hs a ha)
  · rw [if_neg hk]
    exact hs a ha

/-- Marking a ride FAILED keeps the invariant when every stored entry under
that id has no assigned driver. -/
theorem stateRideInv_fail_update (s : SimulationState) (rid : String)
    (hs : stateRideInv s)
    (hQ : ∀ r ∈ s.ride_requests, r.id = rid → r.assigned_driver_id = none) :
    stateRideInv (s.update_ride rid RideRequest.fail) := by
  intro r' hr'
  unfold SimulationState.update_ride updateBy at hr'
  dsimp only at hr'
  rcases List.mem_map.mp hr' with ⟨a, ha, rfl⟩
  by_cases hk : a.id = rid
  · rw [if_pos hk]
    have hnone := hQ a ha hk
    simp [rideInv, RideRequest.fail, hnone]
  · rw [if_neg hk]
    exact hs a ha

/-- Marking a ride COMPLETED keeps the invariant when every stored entry
under that id has an assigned driver. -/
theorem stateRideInv_complete_update (s : SimulationState) (rid : String)
    (hs : stateRideInv s)
    (hQ : ∀ r ∈ s.ride_requests, r.id = rid → r.assigned_driver_id ≠ none) :
    stateRideInv (s.update_ride rid RideRequest.complete) := by
  intro r' hr'
  unfold SimulationState.update_ride updateBy at hr'
  dsimp only at hr'
  rcases List.mem_map.mp hr' with ⟨a, ha, rfl⟩
  by_cases hk : a.id = rid
  · rw [if_pos hk]
    have hsome := hQ a ha hk
    simp [rideInv, RideRequest.complete, hsome]
  · rw [if_neg hk]
    exact hs a ha

/-- After the WAITING/clear update, every entry under the ride's id has no
assigned driver. -/
theorem assigned_none_after_clear (s : SimulationState) (rid : String) :
    ∀ r ∈ (s.update_ride rid fun r =>
      { r with status := RideStatus.waiting,
               assigned_driver_id := none }).ride_requests,
      r.id = rid → r.assigned_driver_id = none := by
  intro r' hr' hk
  unfold SimulationState.update_ride updateBy at hr'
  dsimp only at hr'
  rcases List.mem_map.mp hr' with ⟨a, ha, rfl⟩
  by_cases h : a.id = rid
  · rw [if_pos h]
  · rw [if_neg h] at hk
    exact absurd hk h

/-- Updates that keep ids and assigned drivers preserve the
"no assigned driver under `rid`" property. -/
theorem assigned_none_preserved (s : SimulationState) (rid rid2 : String)
    (f : RideRequest → RideRequest)
    (hfa : ∀ r, (f r).assigned_driver_id = r.assigned_driver_id)
    (hfi : ∀ r, (f r).id = r.id)
    (hQ : ∀ r ∈ s.ride_requests, r.id = rid → r.assigned_driver_id = none) :
    ∀ r ∈ (s.update_ride rid2 f).ride_requests,
      r.id = rid → r.assigned_driver_id = none := by
  intro r' hr' hk
  unfold SimulationState.update_ride updateBy at hr'
  dsimp only at hr'
  rcases List.mem_map.mp hr' with ⟨a, ha, rfl⟩
  by_cases h : a.id = rid2
  · rw [if_pos h] at hk ⊢
    rw [hfi a] at hk
    rw [hfa a]
    exact hQ a ha hk
  · rw [if_neg h] at hk ⊢
    exact hQ a ha hk

/-- `add_ride_request` preserves the invariant for a fresh WAITING ride with
no assigned driver. -/
theorem add_ride_preserves_rideInv (s : SimulationState) (r : RideRequest)
    (s' : SimulationState) (hs : stateRideInv s)
    (hw : r.status = RideStatus.waiting) (ha : r.assigned_driver_id = none)
    (hadd : s.add_ride_request r = some s') : stateRideInv s' := by
  unfold SimulationState.add_ride_request at hadd
  split at hadd
  · exact absurd hadd (by simp)
  · have hs' := Option.some.inj hadd
    subst hs'
    intro r' hr'
    rcases List.mem_append.mp hr' with h | h
    · exact hs r' h
    · rcases List.mem_singleton.mp h with rfl
      simp [rideInv, ha, hw]

/-- `dispatch_ride` preserves the amended invariant. -/
theorem dispatch_preserves_rideInv (rid : String) (s : SimulationState)
    (hs : stateRideInv s) : stateRideInv (dispatch_ride rid s).2 := by
  unfold dispatch_ride
  split
  · exact hs
  · dsimp only
    split_ifs
    · exact hs
    · exact hs
    · exact hs
    · exact hs
    split
    · exact hs
    · dsimp only
      exact stateRideInv_update_of _ _ _ hs (by
        intro r _
        simp [rideInv, RideRequest.assign_driver])

/-- `attempt_fallback_dispatch` preserves the amended invariant. -/
theorem fallback_preserves_rideInv (rid rej : String) (s : SimulationState)
    (hs : stateRideInv s) :
    stateRideInv (attempt_fallback_dispatch rid rej s).2 := by
  unfold attempt_fallback_dispatch
  split
  · exact hs
  · dsimp only
    have hs1 : stateRideInv (s.update_ride rid fun r =>
        r.add_rejection rej s.current_tick
          s.config.rejection_cooldown_ticks) :=
      stateRideInv_update_of _ _ _ hs (by intro r hr; exact hr)
    have hs2 : stateRideInv ((s.update_ride rid fun r =>
        r.add_rejection rej s.current_tick
          s.config.rejection_cooldown_ticks).update_ride rid fun r =>
        { r with status := RideStatus.waiting,
                 assigned_driver_id := none }) :=
      stateRideInv_update_of _ _ _ hs1 (by intro r _; simp [rideInv])
    have hs3 : stateRideInv (((s.update_ride rid fun r =>
        r.add_rejection rej s.current_tick
          s.config.rejection_cooldown_ticks).update_ride rid fun r =>
        { r with status := RideStatus.waiting,
                 assigned_driver_id := none }).update_ride rid fun r =>
        { r with cooldown_until_tick := none }) :=
      stateRideInv_update_of _ _ _ hs2 (by intro r hr; exact hr)
    have hQ2 := assigned_none_after_clear (s.update_ride rid fun r =>
      r.add_rejection rej s.current_tick
        s.config.rejection_cooldown_ticks) rid
    have hQ3 : ∀ r ∈ (((s.update_ride rid fun r =>
        r.add_rejection rej s.current_tick
          s.config.rejection_cooldown_ticks).update_ride rid fun r =>
        { r with status := RideStatus.waiting,
                 assigned_driver_id := none }).update_ride rid fun r =>
        { r with cooldown_until_tick := none }).ride_requests,
        r.id = rid → r.assigned_driver_id = none :=
      assigned_none_preserved _ rid rid _ (fun r => rfl) (fun r => rfl) hQ2
    split_ifs with h1 h2
    · exact dispatch_preserves_rideInv rid _ hs3
    · have hdf := (Bool.not_eq_true _).mp h1
      have hstate := dispatch_ride_fail_state _ _ hdf
      rw [hstate]
      refine stateRideInv_fail_update _ _ ?_ ?_
      · exact stateRideInv_update_of _ _ _ hs3 (by intro r hr; exact hr)
      · exact assigned_none_preserved _ rid rid _ (fun r => rfl)
          (fun r => rfl) hQ3
    · have hdf := (Bool.not_eq_true _).mp h1
      have hstate := dispatch_ride_fail_state _ _ hdf
      rw [hstate]
      exact stateRideInv_update_of _ _ _ hs3 (by intro r hr; exact hr)

/-- `process_driver_response` preserves the amended invariant. -/
theorem response_preserves_rideInv (did rid : String) (acc : Bool)
    (s : SimulationState) (hs : stateRideInv s) :
    stateRideInv (process_driver_response did rid acc s).2 := by
  unfold process_driver_response
  split
  · exact hs
  · exact hs
  · dsimp only
    split_ifs
    · exact hs
    · exact hs
    · refine fallback_preserves_rideInv rid did _ ?_
      refine stateRideInv_update_of _ _ _ ?_ (by intro r _; simp [rideInv])
      exact stateRideInv_update_of _ _ _ hs (by intro r hr; exact hr)

/-- `process_driver_movement` preserves the amended invariant, given that any
ride an ON_TRIP driver points to has an assigned driver stored under its id
(the driver–ride linkage of a well-formed world). -/
theorem movement_preserves_rideInv (did : String) (dir : Direction)
    (coin : Bool) (s : SimulationState) (hs : stateRideInv s)
    (hlink : ∀ dd rid2, s.get_driver did = some dd →
      dd.status = DriverStatus.on_trip → dd.current_ride_id = some rid2 →
      ∀ r2 ∈ s.ride_requests, r2.id = rid2 →
        r2.assigned_driver_id ≠ none) :
    stateRideInv (process_driver_movement did dir coin s) := by
  unfold process_driver_movement
  cases hget : s.get_driver did with
  | none => exact hs
  | some dd =>
    dsimp only
    cases hst : dd.status with
    | available => exact hs
    | assigned =>
      dsimp only
      cases hc : dd.current_ride_id with
      | none => exact hs
      | some rid2 =>
        dsimp only
        cases hrq : s.get_ride_request rid2 with
        | none => exact hs
        | some ride2 =>
          dsimp only
          split
          · refine stateRideInv_update_of _ _ RideRequest.start_trip hs ?_
            intro r hr
            unfold RideRequest.start_trip
            split_ifs with hcond
            · unfold rideInv at hr ⊢
              dsimp only
              constructor
              · intro _
                exact Or.inr (Or.inr (Or.inl rfl))
              · intro _
                refine hr.mpr ?_
                rcases hcond with h | h
                · exact Or.inl h
                · exact Or.inr (Or.inl h)
            · exact hr
          · exact hs
    | on_trip =>
      dsimp only
      cases hc : dd.current_ride_id with
      | none => exact hs
      | some rid2 =>
        dsimp only
        cases hrq : s.get_ride_request rid2 with
        | none => exact hs
        | some ride2 =>
          dsimp only
          split
          · unfold complete_ride
            dsimp only
            split
            · exact stateRideInv_complete_update _ _ hs
                (hlink dd rid2 hget hst hc)
            · exact stateRideInv_complete_update _ _ hs
                (hlink dd rid2 hget hst hc)
          · exact hs
    | offline => exact hs

/-- C4 (amended): across the core operations, a stored ride's
`assigned_driver_id` is non-null iff its status is ASSIGNED, PICKUP, ON_TRIP
or COMPLETED — ride creation establishes the invariant and dispatch,
fallback, response processing and movement (under the driver–ride linkage of
a well-formed world) preserve it; in particular a FAILED or WAITING ride has
no assigned driver, while a COMPLETED ride keeps one. -/
theorem c4_assigned_iff_active_or_completed :
    (∀ (s : SimulationState) (r : RideRequest) (s' : SimulationState),
      stateRideInv s → r.status = RideStatus.waiting →
      r.assigned_driver_id = none → s.add_ride_request r = some s' →
      stateRideInv s') ∧
    (∀ (rid : String) (s : SimulationState), stateRideInv s →
      stateRideInv (dispatch_ride rid s).2) ∧
    (∀ (rid rej : String) (s : SimulationState), stateRideInv s →
      stateRideInv (attempt_fallback_dispatch rid rej s).2) ∧
    (∀ (did rid : String) (acc : Bool) (s : SimulationState),
      stateRideInv s →
      stateRideInv (process_driver_response did rid acc s).2) ∧
    (∀ (did : String) (dir : Direction) (coin : Bool) (s : SimulationState),
      stateRideInv s →
      (∀ dd rid2, s.get_driver did = some dd →
        dd.status = DriverStatus.on_trip → dd.current_ride_id = some rid2 →
        ∀ r2 ∈ s.ride_requests, r2.id = rid2 →
          r2.assigned_driver_id ≠ none) →
      stateRideInv (process_driver_movement did dir coin s)) :=
  ⟨fun s r s' hs hw ha hadd => add_ride_preserves_rideInv s r s' hs hw ha hadd,
   fun rid s hs => dispatch_preserves_rideInv rid s hs,
   fun rid rej s hs => fallback_preserves_rideInv rid rej s hs,
   fun did rid acc s hs => response_preserves_rideInv did rid acc s hs,
   fun did dir coin s hs hlink =>
     movement_preserves_rideInv did dir coin s hs hlink⟩

/-- Witness for the amended C4: the invariant holds of the one-driver world
and is carried through a concrete dispatch, a concrete fallback (which fails
the ride), and a concrete movement tick. -/
theorem c4_assigned_iff_active_or_completed_witness :
    stateRideInv exS0 ∧
    stateRideInv (dispatch_ride "ride1" exS0).2 ∧
    stateRideInv (attempt_fallback_dispatch "ride1" "d1" exS0).2 ∧
    stateRideInv (process_driver_response "d1" "ride1" false exS0).2 ∧
    stateRideInv (process_driver_movement "d1" Direction.up true exS0) := by
  have hs : stateRideInv exS0 := by decide
  refine ⟨hs,
    c4_assigned_iff_active_or_completed.2.1 "ride1" exS0 hs,
    c4_assigned_iff_active_or_completed.2.2.1 "ride1" "d1" exS0 hs,
    c4_assigned_iff_active_or_completed.2.2.2.1 "d1" "ride1" false exS0 hs,
    c4_assigned_iff_active_or_completed.2.2.2.2 "d1" Direction.up true exS0 hs
      ?_⟩
  intro dd rid2 hdd hst _ _ _ _
  have hd1 : exS0.get_driver "d1" = some exD1 := by decide
  rw [hd1] at hdd
  have hdd' := Option.some.inj hdd
  rw [← hdd'] at hst
  exact absurd hst (by decide)

end RideSim
